import Mathlib

/-!
Verification of the Hardware Gesture & Animation Coordinator of the Rufus robot
(shallow embedding of `rufus.py`, `config.py`, `src/arduino_controller.py` and
`src/gesture_controller.py`).

Conventions of the embedding:
* A serial connection is modelled by a `Bool` (`true` = the `connection` /
  `uno` object is present, `false` = it is `None`, i.e. simulation mode).
* Whether a physical `write` raises `serial.SerialException` is an input of
  type `WriteResult` (the environment decides it); the embedding then follows
  the code's `try/except` structure.
* Bytes written to the device are collected as a `List String` of the exact
  lines written (including the trailing newline the code appends).
* Calls to `random.choice` / `random.randint` are modelled by explicit
  parameters (`k` selects the servo, `delta` is the random offset).
* Durations are measured in tenths of a second (the code's sleep slice is
  `time.sleep(0.1)`, i.e. one unit).
-/

namespace Rufus

/-- A servo joint: safe range and rest angle.  Mirrors one entry of the
`SERVO_LIMITS` table of `rufus.py` (lines 45-49). -/
structure Joint where
  min : Int
  max : Int
  rest : Int
deriving DecidableEq, Repr

/-- The `SERVO_LIMITS` table of `rufus.py` lines 45-49:
`head: {min 40, max 120, rest 90}`, `left_arm: {min 0, max 80, rest 80}`,
`right_arm: {min 90, max 180, rest 90}`. -/
def SERVO_LIMITS : List (String × Joint) :=
  [("head", ⟨40, 120, 90⟩), ("left_arm", ⟨0, 80, 80⟩), ("right_arm", ⟨90, 180, 90⟩)]

/-- The clamp expression used by the idle-animation path of `rufus.py`
(line 159): `new_pos = max(limits["min"], min(limits["max"], new_pos))`. -/
def clamp (j : Joint) (a : Int) : Int :=
  max j.min (min j.max a)

/-- The `SERVO_PINS` table of `config.py` (lines 47-51): the servo names the
controller recognises, with their Arduino pins. -/
def SERVO_PINS : List (String × Nat) :=
  [("head", 9), ("left_arm", 10), ("right_arm", 8)]

/-- The `SERVO_HOME_POSITIONS` table of `config.py` (lines 60-64). -/
def SERVO_HOME_POSITIONS : List (String × Int) :=
  [("head", 80), ("left_arm", 40), ("right_arm", 135)]

/-- The `SERVO_RANGES` table of `config.py` (lines 53-57).  Note: nothing in
`src/arduino_controller.py` ever reads this table. -/
def SERVO_RANGES : List (String × (Int × Int)) :=
  [("head", (40, 120)), ("left_arm", (0, 80)), ("right_arm", (90, 180))]

/-- Outcome of the low-level `serial` write: either it succeeds or it raises
`serial.SerialException`.  This is an input of the embedding (decided by the
environment / hardware). -/
inductive WriteResult
  | ok
  | fail
deriving DecidableEq, Repr

/-- Caller-visible result of `ArduinoController.send_command`: the returned
`bool` together with the list of lines actually written to the device. -/
structure SendResult where
  ret : Bool
  written : List String
deriving DecidableEq, Repr

/-- `ArduinoController.send_command` (`src/arduino_controller.py` lines 77-98):
if `self.connection` is `None` (simulation mode) it logs and returns `True`
without writing; otherwise it writes `f"{command}\n"` and returns `True`, or
catches `serial.SerialException` and returns `False`. -/
def send_command (conn : Bool) (wr : WriteResult) (command : String) : SendResult :=
  if conn = false then
    ⟨true, []⟩
  else
    match wr with
    | .ok => ⟨true, [command ++ "\n"]⟩
    | .fail => ⟨false, []⟩

/-- `ArduinoController.move_servo` (`src/arduino_controller.py` lines 112-128):
rejects servo names absent from `SERVO_PINS`, otherwise sends the command
`f"{servo}_{angle}"`.  The requested angle is passed through verbatim — the
method consults neither `SERVO_RANGES` nor any other range table. -/
def move_servo (conn : Bool) (wr : WriteResult) (servo : String) (angle : Int) : SendResult :=
  if (SERVO_PINS.lookup servo).isSome then
    send_command conn wr (servo ++ "_" ++ toString angle)
  else
    ⟨false, []⟩

/-- C1: the claim states that every caller-requested angle is clamped to the
joint's safe range before reaching the Link, so that `move(head, 200)` writes
the wire command carrying angle `120`.  The code does not do this:
`move_servo("head", 200)` writes the line `"head_200\n"` — the unclamped
caller angle reaches the device, although `clamp` of the head joint at 200 is
120 and `config.py` defines (but never uses) the safe range `(40, 120)`. -/
theorem moveServo_head_200_unclamped :
    move_servo true .ok "head" 200 = ⟨true, ["head_200\n"]⟩ ∧
    clamp ⟨40, 120, 90⟩ 200 = 120 ∧
    (SERVO_RANGES.lookup "head") = some (40, 120) := by
  refine ⟨?_, by decide, by decide⟩
  rfl

/-- C9: for every joint of the registry and every requested angle, the clamp
expression of `rufus.py` line 159 yields a value inside the joint's safe
range, and is the identity on angles already in range. -/
theorem clamp_spec (name : String) (j : Joint) (h : (name, j) ∈ SERVO_LIMITS) (a : Int) :
    j.min ≤ clamp j a ∧ clamp j a ≤ j.max ∧
    (j.min ≤ a → a ≤ j.max → clamp j a = a) := by
  have hle : j.min ≤ j.max := by
    simp only [SERVO_LIMITS, List.mem_cons, List.mem_singleton, Prod.mk.injEq,
      List.not_mem_nil, or_false] at h
    rcases h with ⟨_, rfl⟩ | ⟨_, rfl⟩ | ⟨_, rfl⟩ <;> decide
  refine ⟨le_max_left _ _, max_le hle (min_le_left _ _), fun h1 h2 => ?_⟩
  rw [clamp, min_eq_right h2, max_eq_right h1]

/-- Witness for C9 at the `head` joint and the in-range angle 50. -/
theorem clamp_spec_witness :
    (40 : Int) ≤ clamp ⟨40, 120, 90⟩ 50 ∧ clamp ⟨40, 120, 90⟩ 50 ≤ 120 ∧
    ((40 : Int) ≤ 50 → (50 : Int) ≤ 120 → clamp ⟨40, 120, 90⟩ 50 = 50) :=
  clamp_spec "head" ⟨40, 120, 90⟩ (by decide) 50

/-- The servo-name list `["head", "left_arm", "right_arm"]` from which
`random.choice` picks, both in `ArduinoController.natural_movement`
(`list(SERVO_PINS.keys())`) and in the idle loop of `rufus.py` line 150. -/
def servoNames : List String :=
  ["head", "left_arm", "right_arm"]

/-- `ArduinoController.natural_movement` (`src/arduino_controller.py` lines
147-161), as the sequence of commands it hands to `send_command` (via
`move_servo`): servo `servoNames[k % 3]` (the `random.choice`), angle
`home + delta` clamped to `[0, 180]` (not to the joint's safe range), then
back to the home angle.  `delta` models `random.randint(-15, 15)`. -/
def natural_movement_steps (k : Nat) (delta : Int) : List String :=
  let servo := servoNames.getD (k % 3) "head"
  let current := (SERVO_HOME_POSITIONS.lookup servo).getD 0
  let newAngle := max 0 (min 180 (current + delta))
  [servo ++ "_" ++ toString newAngle, servo ++ "_" ++ toString current]

/-- The gesture table of `GestureController.perform_gesture`
(`src/gesture_controller.py` lines 102-111): the recognised gesture names,
in declaration order. -/
def gestureNames : List String :=
  ["yes", "no", "neutral", "head_tilt", "thinking", "wave", "excited", "natural_movement"]

/-- The sequence of commands each gesture handler of `GestureController`
(lines 33-90) passes to `send_command` (directly or through `move_servo`;
every servo used is in `SERVO_PINS`, so `move_servo` forwards `"{servo}_{angle}"`):
* `gesture_yes`/`gesture_no`/`gesture_neutral` send the bare token;
* `gesture_head_tilt`: head to 100 then 80;
* `gesture_thinking`: head to 70, 90, 80;
* `gesture_wave`: right arm through `[135, 150, 135, 150, 135]`;
* `gesture_excited`: three rounds of left 60, right 150, left 40, right 135;
* `natural_movement` delegates to `ArduinoController.natural_movement`. -/
def gesture_steps (k : Nat) (delta : Int) : String → List String
  | "yes" => ["yes"]
  | "no" => ["no"]
  | "neutral" => ["neutral"]
  | "head_tilt" => ["head_100", "head_80"]
  | "thinking" => ["head_70", "head_90", "head_80"]
  | "wave" => ["right_arm_135", "right_arm_150", "right_arm_135", "right_arm_150", "right_arm_135"]
  | "excited" => (List.replicate 3
      ["left_arm_60", "right_arm_150", "left_arm_40", "right_arm_135"]).flatten
  | "natural_movement" => natural_movement_steps k delta
  | _ => []

/-- Run a sequence of commands through `send_command` one after the other,
collecting the lines written; `wr i` is the write outcome of the i-th call
(the handlers ignore the boolean results, as the source does). -/
def runSends (conn : Bool) (wr : Nat → WriteResult) : Nat → List String → List String
  | _, [] => []
  | i, c :: cs => (send_command conn (wr i) c).written ++ runSends conn wr (i + 1) cs

/-- `GestureController.perform_gesture` (`src/gesture_controller.py` lines
92-118): if the name is in the gesture table, run its handler and return
`True`; otherwise log a warning and return `False` without touching the
hardware.  Result: the returned boolean and the lines written. -/
def perform_gesture (conn : Bool) (wr : Nat → WriteResult) (k : Nat) (delta : Int)
    (name : String) : Bool × List String :=
  if name ∈ gestureNames then
    (true, runSends conn wr 0 (gesture_steps k delta name))
  else
    (false, [])

/-- In simulation mode (no connection) no call of `send_command` writes
anything. -/
theorem runSends_disconnected (wr : Nat → WriteResult) :
    ∀ (i : Nat) (cs : List String), runSends false wr i cs = [] := by
  intro i cs
  induction cs generalizing i with
  | nil => rfl
  | cons c cs ih => simp [runSends, send_command, ih]

/-- C8: `perform_gesture` returns `false` exactly on unrecognised names; an
unrecognised name writes nothing; and the return value is the same whatever
the connection state and whatever write failures occur (it equals the value
obtained with a connected link and all writes succeeding). -/
theorem perform_gesture_spec (conn : Bool) (wr : Nat → WriteResult) (k : Nat) (delta : Int)
    (name : String) :
    ((perform_gesture conn wr k delta name).1 = false ↔ name ∉ gestureNames) ∧
    (name ∉ gestureNames → (perform_gesture conn wr k delta name).2 = []) ∧
    (perform_gesture conn wr k delta name).1
      = (perform_gesture true (fun _ => .ok) k delta name).1 := by
  by_cases h : name ∈ gestureNames <;> simp [perform_gesture, h]

/-- C4 counterexample: the claim says that with the link never connected every
send is "reported as not performed".  In simulation mode `send_command`
returns `True` — the exact value its contract documents as "successful" and
the same value a connected, successful send returns — so the caller is told
the command was performed. -/
theorem degraded_send_reported_performed :
    (send_command false .ok "yes").ret = true ∧
    (send_command false .ok "yes").ret = (send_command true .ok "yes").ret := by
  decide

/-- C4 amended: with the link never connected the system runs degraded —
every send returns `True` (the success value) with zero bytes written, and
performing any recognised gesture still returns `true` and writes zero bytes;
the embedding is total, so no exception surfaces. -/
theorem degraded_mode_amended (wr : WriteResult) (wrs : Nat → WriteResult) (cmd : String)
    (k : Nat) (delta : Int) (g : String) (hg : g ∈ gestureNames) :
    send_command false wr cmd = ⟨true, []⟩ ∧
    (perform_gesture false wrs k delta g).1 = true ∧
    (perform_gesture false wrs k delta g).2 = [] := by
  refine ⟨?_, ?_, ?_⟩
  · cases wr <;> rfl
  · simp [perform_gesture, hg]
  · simp [perform_gesture, hg, runSends_disconnected]

/-- Witness for C4 (amended) at the recognised gesture `"yes"`. -/
theorem degraded_mode_amended_witness :
    send_command false .ok "rest" = ⟨true, []⟩ ∧
    (perform_gesture false (fun _ => .fail) 0 5 "yes").1 = true ∧
    (perform_gesture false (fun _ => .fail) 0 5 "yes").2 = [] :=
  degraded_mode_amended .ok (fun _ => .fail) "rest" 0 5 "yes" (by decide)

/-- Caller-visible result of the script-level `send_command` of `rufus.py`:
the Python function returns `None` on every path, so the returned value is
modelled as an `Option Bool` that the code never makes `some`. -/
structure PySendResult where
  ret : Option Bool
  written : List String
deriving DecidableEq, Repr

/-- The module-level `send_command(uno, cmd)` of `rufus.py` (lines 71-88):
in simulation mode it prints and returns `None`; otherwise it writes
`f"{cmd}\n"`, echoes any device response, and returns `None`; a serial
exception is caught, printed, and the function still returns `None`. -/
def rufus_send_command (uno : Bool) (wr : WriteResult) (cmd : String) : PySendResult :=
  if uno = false then
    ⟨none, []⟩
  else
    match wr with
    | .ok => ⟨none, [cmd ++ "\n"]⟩
    | .fail => ⟨none, []⟩

/-- C5 counterexample: a failing write in `rufus.py`'s `send_command` drops
the command — zero lines reach the device — while the caller receives `None`,
the identical value returned on success: no `Ack` / `LinkError` outcome is
observable, so the command is silently dropped. -/
theorem rufus_send_silent_drop :
    (rufus_send_command true .fail "rest").written = [] ∧
    (rufus_send_command true .fail "rest").ret
      = (rufus_send_command true .ok "rest").ret := by
  decide

/-- C5 amended: `ArduinoController.send_command` does report an outcome to
its caller — it returns `False` exactly when a write fails on a live
connection and `True` otherwise (soft-success, acks never being read) — but
the script-level `send_command` of `rufus.py` returns `None` on every path,
so its callers observe no outcome at all. -/
theorem send_outcome_amended (conn : Bool) (wr : WriteResult) (cmd : String) :
    ((send_command conn wr cmd).ret = false ↔ (conn = true ∧ wr = .fail)) ∧
    (rufus_send_command conn wr cmd).ret = none := by
  cases conn <;> cases wr <;> simp [send_command, rufus_send_command]

/-- One post-sleep body of `idle_animation_loop` in `rufus.py` (lines
144-165), as the list of commands it passes to `send_command` in that cycle:
if `conversation_locked` is set the cycle is skipped (`continue`); otherwise,
when an arduino object is present, the chosen servo (`servoNames[k % 3]`,
the `random.choice` of line 150) is sent to `rest + delta` clamped to its
`SERVO_LIMITS` range, then back to its rest angle.  With no arduino the
`if arduino:` guard issues no send at all. -/
def idle_cycle (locked arduino : Bool) (k : Nat) (delta : Int) : List String :=
  if locked then
    []
  else if arduino then
    let servo := servoNames.getD (k % 3) "head"
    let limits := (SERVO_LIMITS.lookup servo).getD ⟨0, 0, 0⟩
    let newPos := max limits.min (min limits.max (limits.rest + delta))
    [servo ++ "_" ++ toString newPos, servo ++ "_" ++ toString limits.rest]
  else
    []

/-- Environment of one idle cycle: the suppression flag and arduino presence
as the loop observes them, and the cycle's random draws. -/
structure CycleEnv where
  locked : Bool
  arduino : Bool
  k : Nat
  delta : Int

/-- The send calls issued by a run of successive idle cycles, each under its
own environment. -/
def idle_trace (envs : List CycleEnv) : List String :=
  (envs.map fun e => idle_cycle e.locked e.arduino e.k e.delta).flatten

/-- C2: for as long as every idle cycle observes the suppression flag set —
however many cycles that is — the idle loop issues zero send calls; and a
cycle that observes the flag released proceeds normally, issuing its two
movement commands. -/
theorem suppression_silences_idle (envs : List CycleEnv)
    (h : ∀ e ∈ envs, e.locked = true) (k : Nat) (delta : Int) :
    idle_trace envs = [] ∧ (idle_cycle false true k delta).length = 2 := by
  constructor
  · induction envs with
    | nil => rfl
    | cons e es ih =>
      have he : e.locked = true := h e (List.mem_cons_self e es)
      have hrest := ih fun x hx => h x (List.mem_cons_of_mem e hx)
      simpa [idle_trace, idle_cycle, he] using hrest
  · have h3 : k % 3 = 0 ∨ k % 3 = 1 ∨ k % 3 = 2 := by omega
    rcases h3 with h3 | h3 | h3 <;> simp [idle_cycle, servoNames, h3]

/-- Witness for C2: two suppressed cycles issue nothing, and an unsuppressed
cycle issues its two commands. -/
theorem suppression_silences_idle_witness :
    idle_trace [⟨true, true, 0, 7⟩, ⟨true, true, 2, -4⟩] = [] ∧
    (idle_cycle false true 1 9).length = 2 :=
  suppression_silences_idle [⟨true, true, 0, 7⟩, ⟨true, true, 2, -4⟩]
    (by decide) 1 9

/-- An event of an idle-loop sleep phase: a `time.sleep` of `n` tenths of a
second, or a check of the running flag. -/
inductive IdleEv
  | sleepTenths (n : Nat)
  | checkStop
deriving DecidableEq, Repr

/-- The interval-sleep phase of `rufus.py`'s idle loop (lines 139-142):
`for _ in range(int(interval * 10)): time.sleep(0.1); if not idle_animation_running: return`
— `n` slices, each a sleep of one tenth followed by a flag check. -/
def rufus_sleep_events (n : Nat) : List IdleEv :=
  (List.replicate n [IdleEv.sleepTenths 1, IdleEv.checkStop]).flatten

/-- The interval-sleep phase of `GestureController._idle_animation_loop`
(`src/gesture_controller.py` lines 141-149): a single `time.sleep(interval)`
of the whole interval, followed by one flag check. -/
def gesture_sleep_events (intervalTenths : Nat) : List IdleEv :=
  [IdleEv.sleepTenths intervalTenths, IdleEv.checkStop]

/-- A sleep phase is sliced when every one of its sleeps lasts at most one
tenth of a second (one 100 ms slice). -/
def sliced (evs : List IdleEv) : Prop :=
  ∀ n, IdleEv.sleepTenths n ∈ evs → n ≤ 1

/-- C6 counterexample: the claim says the Idle Animator's interval sleep is
performed in 100 ms slices with the stop signal checked each slice.
`GestureController._idle_animation_loop` sleeps the whole interval in one
uninterruptible `time.sleep(interval)`: at the configured minimum interval of
8 s (80 tenths, `IDLE_ANIMATION_INTERVAL_MIN`) its sleep phase is a single
80-tenth sleep with a single check after it — not sliced. -/
theorem gesture_sleep_not_sliced : ¬ sliced (gesture_sleep_events 80) := by
  intro h
  have := h 80 (by simp [gesture_sleep_events])
  omega

/-- One full cycle of `rufus.py`'s idle loop including its sliced sleep, as
the send calls it issues: `running i` is the flag value observed at the i-th
slice check; the `for` loop returns at the first false check, so commands are
issued only when every check passes. -/
def rufus_idle_cycle (n : Nat) (running : Nat → Bool) (locked arduino : Bool)
    (k : Nat) (delta : Int) : List String :=
  if (List.range n).all running then
    idle_cycle locked arduino k delta
  else
    []

/-- One cycle of `GestureController._idle_animation_loop` after its sleep:
the flag is checked once; if false the loop breaks before any movement,
otherwise `natural_movement` runs. -/
def gesture_idle_cycle (runningAtCheck : Bool) (k : Nat) (delta : Int) : List String :=
  if runningAtCheck then natural_movement_steps k delta else []

/-- C6 amended: in `rufus.py`'s idle loop the interval sleep is sliced at
0.1 s with the stop flag checked each slice, and a stop observed at any slice
before the interval elapses ends the cycle with zero commands issued; in
`GestureController`'s loop the interval sleep is a single uninterruptible
`time.sleep(interval)` with one check after it, so stopping can take up to
the full interval to be observed, though a stop observed at that check still
issues no command. -/
theorem idle_sleep_amended (n : Nat) (running : Nat → Bool)
    (hstop : ∃ i, i < n ∧ running i = false) (locked arduino : Bool)
    (k k' : Nat) (delta delta' : Int) (m : Nat) :
    sliced (rufus_sleep_events m) ∧
    rufus_idle_cycle n running locked arduino k delta = [] ∧
    gesture_idle_cycle false k' delta' = [] := by
  refine ⟨?_, ?_, rfl⟩
  · intro j hj
    rw [rufus_sleep_events] at hj
    rcases List.mem_flatten.mp hj with ⟨l, hl, hjl⟩
    have hleq := List.eq_of_mem_replicate hl
    subst hleq
    simp only [List.mem_cons, List.not_mem_nil, or_false] at hjl
    rcases hjl with h | h
    · injection h with h2
      omega
    · simp at h
  · rcases hstop with ⟨i, hi, hfalse⟩
    have : (List.range n).all running = false := by
      rw [List.all_eq_false]
      exact ⟨i, List.mem_range.mpr hi, by simp [hfalse]⟩
    simp [rufus_idle_cycle, this]

/-- Witness for C6 (amended): a 1.5 s interval (15 slices) stopped at the
first slice check. -/
theorem idle_sleep_amended_witness :
    sliced (rufus_sleep_events 15) ∧
    rufus_idle_cycle 15 (fun _ => false) false true 0 5 = [] ∧
    gesture_idle_cycle false 1 3 = [] :=
  idle_sleep_amended 15 (fun _ => false) ⟨0, by decide, rfl⟩ false true 0 1 5 3 15

/-- Possible wire orders of two concurrent activities.
`ArduinoController.send_command` (`src/arduino_controller.py` lines 77-98)
performs no lock acquisition — its body is `write` + `flush` inside a
`try` — and no lock exists anywhere in the repository, so between any two
send calls the scheduler may switch threads: the command orders observable
on the wire when two threads issue the sequences `xs` and `ys` are exactly
the interleavings of `xs` and `ys`. -/
def interleavings : List String → List String → List (List String)
  | [], ys => [ys]
  | x :: xs, [] => [x :: xs]
  | x :: xs, y :: ys =>
      (interleavings xs (y :: ys)).map (x :: ·) ++
      (interleavings (x :: xs) ys).map (y :: ·)
termination_by xs ys => xs.length + ys.length

/-- Gesture A's commands are contiguous before gesture B's (or vice versa) in
the trace `t`. -/
def contiguous (a b t : List String) : Prop :=
  t = a ++ b ∨ t = b ++ a

/-- C3 counterexample: with no mutual-exclusion region around `send_command`,
a `head_tilt` gesture and a `thinking` gesture running in two threads can
interleave their steps on the wire: the trace
`[head_100, head_70, head_80, head_90, head_80]` is a reachable wire order of
the two step sequences, and in it neither gesture's sequence is contiguous
before the other's. -/
theorem concurrent_gestures_interleave :
    ["head_100", "head_70", "head_80", "head_90", "head_80"] ∈
      interleavings (gesture_steps 0 0 "head_tilt") (gesture_steps 0 0 "thinking") ∧
    ¬ contiguous (gesture_steps 0 0 "head_tilt") (gesture_steps 0 0 "thinking")
      ["head_100", "head_70", "head_80", "head_90", "head_80"] := by
  constructor
  · simp [gesture_steps, interleavings]
  · intro h
    rcases h with h | h <;> revert h <;> decide

/-- C3 amended: the code serializes nothing across threads — any interleaving
of two concurrent activities' send sequences is a possible wire order — and
the only ordering guarantee is per-activity program order: in every reachable
wire order, each activity's own send sequence appears as a subsequence. -/
theorem interleave_sublist (a : List String) :
    ∀ (b t : List String), t ∈ interleavings a b → a.Sublist t ∧ b.Sublist t := by
  induction a with
  | nil =>
    intro b t h
    rw [interleavings] at h
    simp only [List.mem_singleton] at h
    subst h
    exact ⟨List.nil_sublist _, List.Sublist.refl _⟩
  | cons x xs ihx =>
    intro b
    induction b with
    | nil =>
      intro t h
      rw [interleavings] at h
      simp only [List.mem_singleton] at h
      subst h
      exact ⟨List.Sublist.refl _, List.nil_sublist _⟩
    | cons y ys ihy =>
      intro t h
      rw [interleavings] at h
      rcases List.mem_append.mp h with hm | hm
      · rcases List.mem_map.mp hm with ⟨t', ht', rfl⟩
        have hh := ihx (y :: ys) t' ht'
        exact ⟨hh.1.cons₂ x, hh.2.cons x⟩
      · rcases List.mem_map.mp hm with ⟨t', ht', rfl⟩
        have hh := ihy t' ht'
        exact ⟨hh.1.cons y, hh.2.cons₂ y⟩

/-- Witness for C3 (amended): both step sequences are subsequences of the
interleaved trace of the counterexample schedule. -/
theorem interleave_sublist_witness :
    (gesture_steps 0 0 "head_tilt").Sublist
      ["head_100", "head_70", "head_80", "head_90", "head_80"] ∧
    (gesture_steps 0 0 "thinking").Sublist
      ["head_100", "head_70", "head_80", "head_90", "head_80"] :=
  interleave_sublist (gesture_steps 0 0 "head_tilt") (gesture_steps 0 0 "thinking")
    ["head_100", "head_70", "head_80", "head_90", "head_80"]
    (by simp [gesture_steps, interleavings])

/-- The `timeout=2` of `thread.join(timeout=2)` in `stop_idle_animations`
(both `rufus.py` line 183 and `src/gesture_controller.py` line 135), in
tenths of a second. -/
def JOIN_TIMEOUT_TENTHS : Nat := 20

/-- Exit time of the `GestureController._idle_animation_loop` thread when the
running flag is cleared at time `s` while the thread is inside the single
`time.sleep(interval)` it began at time 0 (`s < interval`): the thread wakes
at `interval`, finds the flag false at its one check, and breaks — it
terminates at time `interval`.  (For `s ≥ interval`, outside the modelled
window, the value is `s`.) -/
def gesture_thread_exit (interval s : Nat) : Nat :=
  if s < interval then interval else s

/-- Time at which `stop_idle_animations` returns: the flag is cleared at
time `s`, then `join(timeout=2)` waits until the thread exits or the 2 s
timeout elapses, whichever is first. -/
def join_return (s exitT : Nat) : Nat :=
  min (s + JOIN_TIMEOUT_TENTHS) exitT

/-- Time at which the link is closed by the shutdown sequence
(`RufusBot.shutdown`, `src/rufus.py` lines 308-326, and the `finally` block
of `rufus.py` lines 377-385): the rest gesture and `disconnect`/`close` run
immediately after `stop_idle_animations` returns. -/
def shutdown_close_time (s exitT : Nat) : Nat :=
  join_return s exitT

/-- C7 counterexample: with the configured minimum idle interval of 8 s
(80 tenths) and stop requested at time 0, just after
`GestureController._idle_animation_loop` entered its unsliced sleep, the
2 s join times out: the shutdown sequence closes the link at time 2 s while
the idle thread only terminates at 8 s — the rest gesture and link close
proceed before the Idle Animator's termination, which is not awaited. -/
theorem shutdown_close_before_thread_exit :
    shutdown_close_time 0 (gesture_thread_exit 80 0) = 20 ∧
    gesture_thread_exit 80 0 = 80 ∧
    shutdown_close_time 0 (gesture_thread_exit 80 0) < gesture_thread_exit 80 0 := by
  decide

/-- Exit time of `rufus.py`'s idle thread when the flag is cleared at time
`s` during the sliced sleep of `n` slices (`s < n`): the next 0.1 s slice
check observes the cleared flag and the thread returns at `s + 1`.  (For
`s ≥ n`, outside the modelled window, the value is `n + 1`.) -/
def rufus_thread_exit (n s : Nat) : Nat :=
  if s < n then s + 1 else n + 1

/-- C7 amended: the shutdown sequence does run suppress, stop-and-join, rest
gesture, link close in that order, but the join has a 2 s timeout, so
termination is awaited only when the thread exits within it.  In `rufus.py`'s
sliced loop a stop during the sleep is observed at the next 0.1 s slice, the
thread exits within the timeout, and the link close happens no earlier than
the thread's termination; a `GestureController` thread that wakes to a
cleared flag likewise sends nothing after it.  (When the join times out
during `GestureController`'s unsliced sleep the close precedes termination —
the counterexample.) -/
theorem shutdown_order_amended (n s : Nat) (h : s < n) (k : Nat) (delta : Int) :
    rufus_thread_exit n s ≤ shutdown_close_time s (rufus_thread_exit n s) ∧
    rufus_thread_exit n s ≤ s + JOIN_TIMEOUT_TENTHS ∧
    gesture_idle_cycle false k delta = [] := by
  refine ⟨?_, ?_, rfl⟩ <;>
    simp [rufus_thread_exit, shutdown_close_time, join_return, JOIN_TIMEOUT_TENTHS, h]

/-- Witness for C7 (amended): a 1.5 s interval stopped at its first slice. -/
theorem shutdown_order_amended_witness :
    rufus_thread_exit 15 0 ≤ shutdown_close_time 0 (rufus_thread_exit 15 0) ∧
    rufus_thread_exit 15 0 ≤ 0 + JOIN_TIMEOUT_TENTHS ∧
    gesture_idle_cycle false 2 6 = [] :=
  shutdown_order_amended 15 0 (by decide) 2 6

/-- State of the idle-animation machinery as `start_idle_animations` /
`stop_idle_animations` see it: the running flag and the number of live
idle-animation threads. -/
structure AnimState where
  running : Bool
  liveThreads : Nat
deriving DecidableEq, Repr

/-- `start_idle_animations` (`rufus.py` lines 167-176 and
`src/gesture_controller.py` lines 120-129): if the running flag is already
set, return immediately (no thread spawned); otherwise set the flag and
spawn one background thread. -/
def start_idle_animations (st : AnimState) : AnimState :=
  if st.running then st
  else { running := true, liveThreads := st.liveThreads + 1 }

/-- The running flag over time for the schedule "flag cleared at time `s`
by `stop_idle_animations`, set again at time `r` by a later
`start_idle_animations`" (`s ≤ r`): true before `s`, false on `[s, r)`,
true from `r` on. -/
def flag_at (s r t : Nat) : Bool :=
  decide (t < s) || decide (r ≤ t)

/-- Whether the original `GestureController._idle_animation_loop` thread is
alive at time `t`, for a thread that entered its unsliced
`time.sleep(interval)` at time 0 under the `flag_at s r` schedule: it sleeps
until `interval`, then performs its single flag check — if the flag reads
true there (because a restart at `r ≤ interval` set it again) the `while`
loop continues and the thread stays alive. -/
def old_thread_alive (interval s r t : Nat) : Bool :=
  decide (t ≤ interval) || flag_at s r interval

/-- Whether the thread spawned by the restart at time `r` is alive at `t`. -/
def new_thread_alive (r t : Nat) : Bool :=
  decide (r ≤ t)

/-- Number of live idle-animation threads at time `t` under the
stop-at-`s`, restart-at-`r` schedule with original sleep `interval`. -/
def live_idle_threads (interval s r t : Nat) : Nat :=
  (if old_thread_alive interval s r t then 1 else 0) +
    (if new_thread_alive r t then 1 else 0)

/-- C10 counterexample: the claim concludes that at most one idle-animation
thread exists at any time.  Schedule (tenths of a second): the
`GestureController` thread enters its 8 s sleep at time 0;
`stop_idle_animations` at time 0 clears the flag and its 2 s join times out
at time 20 while the thread still sleeps; `start_idle_animations` at time 20
reads the flag false (it was false at 19) and spawns a second thread.  At
time 30 both threads are alive — and the old thread's eventual check at
time 80 reads the re-set flag true, so it keeps running too. -/
theorem two_idle_threads_possible :
    join_return 0 (gesture_thread_exit 80 0) = 20 ∧
    flag_at 0 20 19 = false ∧
    live_idle_threads 80 0 20 30 = 2 ∧
    flag_at 0 20 80 = true := by
  decide

/-- C10 amended: calling `start_idle_animations` while the running flag is
set is a no-op — the state, including the number of live threads, is
unchanged, so no second thread is spawned by `start` itself.  (The "at most
one thread ever" conclusion fails through the stop/join-timeout/start
schedule of the counterexample.) -/
theorem start_idle_idempotent (st : AnimState) (h : st.running = true) :
    start_idle_animations st = st := by
  simp [start_idle_animations, h]

/-- Witness for C10 (amended): starting while running with one live thread
changes nothing. -/
theorem start_idle_idempotent_witness :
    start_idle_animations ⟨true, 1⟩ = ⟨true, 1⟩ :=
  start_idle_idempotent ⟨true, 1⟩ rfl

end Rufus
